import Mathlib

/-!
Verification of `builtin/show-ref.c` (git show-ref).

Strings are modelled as `List Char` (C byte strings; the file only ever
compares bytes, so `Char` equality is byte equality on the inputs involved).
External collaborators (ref storage, object store, tag peeling, refname
syntax check) are modelled as explicit environment records, following the
spec, which treats them as interfaces only.
-/

namespace ShowRef

/-- C byte-string. -/
abbrev Str := List Char

/-- Object identifier, kept in its hex form (so `oid_to_hex` is the
identity); only compared and printed, never inspected. -/
abbrev Oid := List Char

/-- The global option flags of show-ref.c
(`static int deref_tags, show_head, tags_only, heads_only, verify, quiet,
hash_only, abbrev;`). `abbrevN` is the abbreviation digit count. -/
structure Opts where
  deref_tags : Bool
  show_head : Bool
  tags_only : Bool
  heads_only : Bool
  verify : Bool
  quiet : Bool
  hash_only : Bool
  abbrevN : Nat
deriving DecidableEq, Repr

/-- The external object-store / ref-storage collaborator used by
`show_one` and `cmd_show_ref__verify`:
`repo_has_object_file`, `repo_find_unique_abbrev`, `peel_iterated_oid`
(`none` when the oid does not peel, i.e. the C call returns nonzero),
and `read_ref` (`none` when the C call returns nonzero). -/
structure Env where
  hasObjectFile : Oid → Bool
  findUniqueAbbrev : Oid → Nat → Str
  peelIteratedOid : Oid → Option Oid
  readRef : Str → Option Oid

/-- The literal three-character peel marker `^{}` that git appends to a
peeled line. -/
def peelMark : Str := "^\x7b\x7d".data

/-- `show_one` (show-ref.c lines 24-49).  Returns the emitted stdout lines,
or `.error msg` when the function `die`s (`git show-ref: bad ref ...`). -/
def show_one (env : Env) (o : Opts) (refname : Str) (oid : Oid) :
    Except Str (List Str) :=
  if env.hasObjectFile oid = false then
    .error ("git show-ref: bad ref ".data ++ refname ++ " (".data ++ oid
      ++ ")".data)
  else if o.quiet then
    .ok []
  else
    let hex := env.findUniqueAbbrev oid o.abbrevN
    let first : Str := if o.hash_only then hex else hex ++ [' '] ++ refname
    if o.deref_tags = false then
      .ok [first]
    else
      match env.peelIteratedOid oid with
      | some peeled =>
          .ok [first,
            env.findUniqueAbbrev peeled o.abbrevN ++ [' '] ++ refname
              ++ peelMark]
      | none => .ok [first]

/-- The body of the pattern loop in `show_ref` (show-ref.c lines 67-77) for
a single pattern `m`: `continue` when `len > reflen`, `continue` when
`memcmp(m, refname + reflen - len, len)` differs (the last `len` bytes of
`refname`, i.e. `refname.drop (reflen - len)`, are compared with `m`),
match when `len == reflen` or `refname[reflen - len - 1] == '/'`. -/
def patMatchOne (refname m : Str) : Bool :=
  let reflen := refname.length
  let len := m.length
  decide (len ≤ reflen) &&
  decide (refname.drop (reflen - len) = m) &&
  (decide (len = reflen) ||
    decide (refname.get? (reflen - len - 1) = some '/'))

/-- The matching decision of the callback `show_ref` (show-ref.c lines
56-79): unconditional match for `HEAD` under `show_head`; with a non-null
(hence non-empty) pattern array, match when some pattern passes the loop;
with a null pattern array (modelled as `[]`), fall through to `match:`. -/
def ref_matches (o : Opts) (patterns : List Str) (refname : Str) : Bool :=
  if o.show_head = true ∧ refname = "HEAD".data then true
  else if patterns ≠ [] then patterns.any (patMatchOne refname)
  else true

/-- The ref enumeration of `cmd_show_ref__patterns` (lines 185-194:
`head_ref` / `for_each_fullref_in` / `for_each_ref`) delivered as the list
of per-ref callback invocations, in the storage collaborator enumeration
order; folding the callback `show_ref` (lines 56-87) over it, threading
`found_match`.  Returns emitted lines and the final `found_match`. -/
def runPatterns (env : Env) (o : Opts) (patterns : List Str) :
    List (Str × Oid) → Except Str (List Str × Nat)
  | [] => .ok ([], 0)
  | (refname, oid) :: rest =>
    if ref_matches o patterns refname then
      match show_one env o refname oid with
      | .error e => .error e
      | .ok out =>
        match runPatterns env o patterns rest with
        | .error e => .error e
        | .ok (outs, n) => .ok (out ++ outs, n + 1)
    else runPatterns env o patterns rest

/-- `cmd_show_ref__patterns` (show-ref.c lines 178-199): `data.patterns`
is set only when `argv` is non-empty (line 182), the enumeration `refs` is
folded through the `show_ref` callback, and the return value is 1 exactly
when `found_match` stayed 0.  Result: `(stdout lines, exit code)`. -/
def cmd_show_ref__patterns (env : Env) (o : Opts) (refs : List (Str × Oid))
    (argv : List Str) : Except Str (List Str × Nat) :=
  match runPatterns env o argv refs with
  | .error e => .error e
  | .ok (outs, n) => .ok (outs, if n = 0 then 1 else 0)

/-! ## Exclusion filter (`cmd_show_ref__exclude_existing`, lines 89-154) -/

/-- The environment of the exclusion filter: `existingRefs` is the
string list built by `for_each_ref(add_existing, ...)` (lines 89-96, 122),
and `checkRefnameFormat` models the external `check_refname_format`
collaborator, `true` meaning the C call returns 0 (well-formed). -/
structure XEnv where
  existingRefs : List Str
  checkRefnameFormat : Str → Bool

/-- C `isspace` in the POSIX locale, as used at line 134. -/
def isspace (c : Char) : Bool :=
  c = ' ' || c = '\t' || c = '\n' || c = '\x0b' || c = '\x0c' || c = '\r'

/-- Lines 127-128: drop one trailing newline if present. -/
def stripNewline (l : Str) : Str :=
  if l.length > 0 ∧ l.get? (l.length - 1) = some '\n' then l.dropLast else l

/-- Lines 129-132: when the line has length at least 3 and ends with the
peel marker, truncate the buffer before the marker (`buf[len] = 0`). -/
def stripPeel (l : Str) : Str :=
  if 3 ≤ l.length ∧ l.drop (l.length - 3) = peelMark then
    l.take (l.length - 3)
  else l

/-- Lines 133-135: walk `ref` back from the end of the buffer until the
byte before it is whitespace; the token is the maximal whitespace-free
suffix of the (already truncated) buffer. -/
def refTok (l : Str) : Str :=
  (l.reverse.takeWhile (fun c => !isspace c)).reverse

/-- Lines 136-142: with a pattern, the token survives iff it is at least
as long as the pattern (`reflen < patternlen` skips) and `strncmp(ref,
opts->pattern, patternlen)` finds no difference, i.e. the first
`patternlen` bytes of the token equal the pattern. -/
def patternOk : Option Str → Str → Bool
  | none, _ => true
  | some pat, ref =>
    decide (pat.length ≤ ref.length) && decide (ref.take pat.length = pat)

/-- The fate of a single input line in the loop body (lines 123-150). -/
inductive LineResult where
  | skip
  | warn (ref : Str)
  | emit (line : Str)
deriving DecidableEq, Repr

/-- One iteration of the `fgets` loop (lines 123-150): strip the newline,
strip a trailing peel marker in place, extract the token, apply the
optional prefix pattern (skip silently), `check_refname_format` (warn,
naming the ref, and skip), membership in `existing_refs` (skip), and
otherwise print the truncated buffer `buf`. -/
def processLine (env : XEnv) (pattern : Option Str) (rawLine : Str) :
    LineResult :=
  let buf := stripPeel (stripNewline rawLine)
  let ref := refTok buf
  if patternOk pattern ref = false then .skip
  else if env.checkRefnameFormat ref = false then .warn ref
  else if ref ∈ env.existingRefs then .skip
  else .emit buf

/-- The whole `fgets` loop: accumulated stdout lines and warnings, in
input order. -/
def runExclude (env : XEnv) (pattern : Option Str) :
    List Str → List Str × List Str
  | [] => ([], [])
  | l :: rest =>
    let acc := runExclude env pattern rest
    match processLine env pattern l with
    | .skip => acc
    | .warn r => (acc.1, r :: acc.2)
    | .emit b => (b :: acc.1, acc.2)

/-- `cmd_show_ref__exclude_existing` (lines 116-154): run the loop over
the whole input stream and `return 0` (no abort path exists in the
function body; `warning` does not abort).
Result: `((stdout lines, warnings), exit code)`. -/
def cmd_show_ref__exclude_existing (env : XEnv) (pattern : Option Str)
    (stdinLines : List Str) : (List Str × List Str) × Nat :=
  (runExclude env pattern stdinLines, 0)

/-! ## Verify mode (`cmd_show_ref__verify`, lines 156-176) -/

/-- The qualification test at line 164:
`starts_with(*refs, "refs/") || !strcmp(*refs, "HEAD")`. -/
def validVerifyName (r : Str) : Bool :=
  ("refs/".data).isPrefixOf r || r = "HEAD".data

/-- The `while (*refs)` loop of `cmd_show_ref__verify` (lines 161-173):
a qualified name that `read_ref` resolves is shown (dying inside
`show_one` propagates); otherwise `die` when not quiet, else `return 1`
immediately, abandoning the remaining names.
Result on success: `(stdout lines, return value)`. -/
def verifyGo (env : Env) (o : Opts) : List Str → Except Str (List Str × Nat)
  | [] => .ok ([], 0)
  | r :: rest =>
    match (if validVerifyName r then env.readRef r else none) with
    | some oid =>
      match show_one env o r oid with
      | .error e => .error e
      | .ok out =>
        match verifyGo env o rest with
        | .error e => .error e
        | .ok (outs, code) => .ok (out ++ outs, code)
    | none =>
      if o.quiet = false then
        .error ("\x27".data ++ r ++ "\x27 - not a valid ref".data)
      else .ok ([], 1)

/-- `cmd_show_ref__verify` (lines 156-176): dies on an empty list, else
runs the loop. -/
def cmd_show_ref__verify (env : Env) (o : Opts) (refs : List Str) :
    Except Str (List Str × Nat) :=
  if refs = [] then .error "--verify requires a reference".data
  else verifyGo env o refs

/-! ## Driver (`cmd_show_ref`, lines 220-257) -/

/-- `struct exclude_existing_options` (lines 98-105): `enabled` is set by
the option callback; `pattern` may be `none` even when enabled. -/
structure ExcludeExistingOptions where
  enabled : Bool
  pattern : Option Str

/-- Which of the three mode entry points ran, with its result. -/
inductive Invocation where
  | ranExclude (r : (List Str × List Str) × Nat)
  | ranVerify (r : Except Str (List Str × Nat))
  | ranPatterns (r : Except Str (List Str × Nat))
deriving Repr

/-- The mode dispatch of `cmd_show_ref` (lines 251-256): exclude-existing
first, then verify, then pattern mode; exactly one entry point is
invoked. -/
def cmd_show_ref (env : Env) (xenv : XEnv) (o : Opts)
    (xopts : ExcludeExistingOptions) (stdinLines : List Str)
    (refs : List (Str × Oid)) (argv : List Str) : Invocation :=
  if xopts.enabled then
    .ranExclude (cmd_show_ref__exclude_existing xenv xopts.pattern stdinLines)
  else if o.verify then
    .ranVerify (cmd_show_ref__verify env o argv)
  else
    .ranPatterns (cmd_show_ref__patterns env o refs argv)

/-! ## Shared lemmas -/

/-- The per-pattern loop body matches exactly the byte-for-byte suffixes
that are whole-name or preceded by a slash. -/
theorem patMatchOne_iff (R p : Str) :
    patMatchOne R p = true ↔
      p <:+ R ∧ (p.length = R.length ∨
        R.get? (R.length - p.length - 1) = some '/') := by
  unfold patMatchOne
  simp only [Bool.and_eq_true, Bool.or_eq_true, decide_eq_true_eq]
  constructor
  · rintro ⟨⟨hle, hdrop⟩, hor⟩
    exact ⟨hdrop ▸ List.drop_suffix _ _, hor⟩
  · rintro ⟨⟨t, rfl⟩, hor⟩
    refine ⟨⟨by simp, ?_⟩, hor⟩
    simp

/-- `runPatterns` final tally equals the number of refs accepted by the
`show_ref` matching decision. -/
theorem runPatterns_count (env : Env) (o : Opts) (patterns : List Str) :
    ∀ (refs : List (Str × Oid)) (outs : List Str) (n : Nat),
      runPatterns env o patterns refs = .ok (outs, n) →
      n = refs.countP (fun ro => ref_matches o patterns ro.1) := by
  intro refs
  induction refs with
  | nil =>
    intro outs n h
    simp [runPatterns] at h
    simp [h.2.symm]
  | cons hd tl ih =>
    intro outs n h
    obtain ⟨refname, oid⟩ := hd
    by_cases hm : ref_matches o patterns refname = true
    · rw [runPatterns, if_pos hm] at h
      cases hso : show_one env o refname oid with
      | error e => rw [hso] at h; cases h
      | ok out =>
        rw [hso] at h
        cases hrp : runPatterns env o patterns tl with
        | error e => rw [hrp] at h; cases h
        | ok p =>
          obtain ⟨outs2, n2⟩ := p
          rw [hrp] at h
          injection h with h
          injection h with h1 h2
          simp [List.countP_cons, hm, ← ih outs2 n2 hrp, ← h2]
    · rw [runPatterns, if_neg (by simp [hm])] at h
      simp [List.countP_cons, hm, ← ih outs n h]

/-! ## Concrete instances used to exercise the theorems -/

/-- All flags off, as after `parse_options` with no options. -/
def optsW : Opts := ⟨false, false, false, false, false, false, false, 0⟩

/-- Quiet mode only. -/
def optsQuiet : Opts := ⟨false, false, false, false, false, true, false, 0⟩

/-- `--head` only. -/
def optsHead : Opts := ⟨false, true, false, false, false, false, false, 0⟩

/-- `-d -s`: dereference with hash-only output. -/
def optsDerefHash : Opts := ⟨true, false, false, false, false, false, true, 0⟩

/-- `--verify` only. -/
def optsVerify : Opts := ⟨false, false, false, false, true, false, false, 0⟩

/-- A store in which every object exists, abbreviation is the identity,
nothing peels, and no ref resolves. -/
def envW : Env :=
  ⟨fun _ => true, fun oid _ => oid, fun _ => none, fun _ => none⟩

/-- A store in which every object exists and every oid peels (to itself
doubled, to keep the peeled hex distinct). -/
def envPeel : Env :=
  ⟨fun _ => true, fun oid _ => oid, fun oid => some (oid ++ oid),
   fun _ => none⟩

/-- A store holding no objects at all. -/
def envNoObj : Env :=
  ⟨fun _ => false, fun oid _ => oid, fun _ => none, fun _ => none⟩

/-- Exclusion-filter environment: no local refs, every token well-formed. -/
def xenvW : XEnv := ⟨[], fun _ => true⟩

/-- Exclusion-filter environment: no local refs, no token well-formed. -/
def xenvBad : XEnv := ⟨[], fun _ => false⟩

/-! ## C2 -/

/-- C2: with a non-empty pattern list and the HEAD shortcut out of play,
`show_ref` matches iff some pattern is a byte-for-byte suffix of the ref
name that is whole-name or preceded by a slash; a pattern longer than the
ref never matches; the empty pattern list matches every ref. -/
theorem show_ref_pattern_match_characterization (o : Opts) (R : Str)
    (Ps : List Str) (hne : Ps ≠ [])
    (hh : o.show_head = false ∨ R ≠ "HEAD".data) :
    (ref_matches o Ps R = true ↔
      ∃ p, p ∈ Ps ∧ p <:+ R ∧ (p.length = R.length ∨
        R.get? (R.length - p.length - 1) = some '/'))
    ∧ (∀ p, p ∈ Ps → R.length < p.length → patMatchOne R p = false)
    ∧ ref_matches o [] R = true := by
  have hcond : ¬(o.show_head = true ∧ R = "HEAD".data) := by
    rcases hh with h | h
    · rintro ⟨h1, -⟩; rw [h] at h1; cases h1
    · rintro ⟨-, h2⟩; exact h h2
  refine ⟨?_, ?_, ?_⟩
  · rw [ref_matches, if_neg hcond, if_pos hne, List.any_eq_true]
    exact exists_congr fun p =>
      and_congr_right fun _ => patMatchOne_iff R p
  · intro p hp hlen
    by_contra hne2
    have hm : patMatchOne R p = true := by
      revert hne2; cases patMatchOne R p <;> simp
    have hsuf := ((patMatchOne_iff R p).mp hm).1.length_le
    omega
  · rw [ref_matches]
    split
    · rfl
    · simp

/-- Exercises C2 at `refs/heads/main` against patterns
`[heads/main, domain]`: `heads/main` is a slash-aligned suffix, `domain`
is not, so the ref matches and the witness pattern is `heads/main`. -/
theorem show_ref_pattern_match_characterization_witness :
    (ref_matches optsW ["heads/main".data, "domain".data]
        "refs/heads/main".data = true ↔
      ∃ p, p ∈ ["heads/main".data, "domain".data] ∧
        p <:+ "refs/heads/main".data ∧
        (p.length = "refs/heads/main".data.length ∨
          "refs/heads/main".data.get?
            ("refs/heads/main".data.length - p.length - 1) = some '/'))
    ∧ (∀ p, p ∈ ["heads/main".data, "domain".data] →
        "refs/heads/main".data.length < p.length →
        patMatchOne "refs/heads/main".data p = false)
    ∧ ref_matches optsW [] "refs/heads/main".data = true :=
  show_ref_pattern_match_characterization optsW "refs/heads/main".data
    ["heads/main".data, "domain".data] (by decide) (Or.inl rfl)

/-! ## C7 -/

/-- C7: with `show_head` set, the callback `show_ref` accepts the ref
named HEAD whatever the pattern list is. -/
theorem show_ref_head_matches_unconditionally (o : Opts) (Ps : List Str)
    (h : o.show_head = true) :
    ref_matches o Ps "HEAD".data = true := by
  rw [ref_matches, if_pos ⟨h, rfl⟩]

/-- Exercises C7 with a non-empty pattern list whose single pattern does
not suffix-match HEAD, checking the unconditional match anyway. -/
theorem show_ref_head_matches_unconditionally_witness :
    ref_matches optsHead ["refs/heads/main".data] "HEAD".data = true
    ∧ patMatchOne "HEAD".data "refs/heads/main".data = false :=
  ⟨show_ref_head_matches_unconditionally optsHead ["refs/heads/main".data]
    rfl, by decide⟩

/-! ## C4 -/

/-- C4: `show_one` dies when the pointed-to object is absent from the
object store, quiet or not (the check precedes the quiet return), and
with the object present and quiet set it emits nothing. -/
theorem show_one_validates_object_and_quiet_silence (env : Env) (o : Opts)
    (refname : Str) (oid : Oid) :
    (env.hasObjectFile oid = false →
      show_one env o refname oid =
        .error ("git show-ref: bad ref ".data ++ refname ++ " (".data
          ++ oid ++ ")".data))
    ∧ (env.hasObjectFile oid = true → o.quiet = true →
        show_one env o refname oid = .ok []) := by
  constructor
  · intro h
    rw [show_one, if_pos h]
  · intro h hq
    rw [show_one, if_neg (by simp [h]), if_pos hq]

/-- Exercises C4 in quiet mode: a missing object is fatal even under
quiet, and an existing object under quiet produces no output. -/
theorem show_one_validates_object_and_quiet_silence_witness :
    show_one envNoObj optsQuiet "refs/heads/x".data "ab12".data =
      .error ("git show-ref: bad ref ".data ++ "refs/heads/x".data
        ++ " (".data ++ "ab12".data ++ ")".data)
    ∧ show_one envW optsQuiet "refs/heads/x".data "ab12".data = .ok [] :=
  ⟨(show_one_validates_object_and_quiet_silence envNoObj optsQuiet
      "refs/heads/x".data "ab12".data).1 rfl,
   (show_one_validates_object_and_quiet_silence envW optsQuiet
      "refs/heads/x".data "ab12".data).2 rfl rfl⟩

/-! ## C10 -/

/-- C10: when dereferencing is on, the object exists, quiet is off and
the oid peels, the second output line is always
`abbrev-of-peeled SP refname ^ { }`, with the ref name, and only the first
line depends on `hash_only`. -/
theorem show_one_peeled_line_ignores_hash_only (env : Env) (o : Opts)
    (refname : Str) (oid peeled : Oid)
    (hobj : env.hasObjectFile oid = true) (hq : o.quiet = false)
    (hd : o.deref_tags = true)
    (hp : env.peelIteratedOid oid = some peeled) :
    show_one env o refname oid =
      .ok [(if o.hash_only then env.findUniqueAbbrev oid o.abbrevN
            else env.findUniqueAbbrev oid o.abbrevN ++ [' '] ++ refname),
           env.findUniqueAbbrev peeled o.abbrevN ++ [' '] ++ refname
             ++ peelMark] := by
  rw [show_one, if_neg (by simp [hobj]), if_neg (by simp [hq])]
  simp only [hd, hp]
  rw [if_neg (by simp)]

/-- Exercises C10 under `-d -s`: the first line is hash-only but the
peeled second line still carries the ref name and marker. -/
theorem show_one_peeled_line_ignores_hash_only_witness :
    show_one envPeel optsDerefHash "refs/tags/v1".data "ab".data =
      .ok [(if optsDerefHash.hash_only then
              envPeel.findUniqueAbbrev "ab".data optsDerefHash.abbrevN
            else envPeel.findUniqueAbbrev "ab".data optsDerefHash.abbrevN
              ++ [' '] ++ "refs/tags/v1".data),
           envPeel.findUniqueAbbrev ("ab".data ++ "ab".data)
              optsDerefHash.abbrevN ++ [' '] ++ "refs/tags/v1".data
             ++ peelMark] :=
  show_one_peeled_line_ignores_hash_only envPeel optsDerefHash
    "refs/tags/v1".data "ab".data ("ab".data ++ "ab".data) rfl rfl rfl rfl

/-! ## C1 -/

/-- C1 counterexample: the descriptor `abc123 refs/heads/topic^ { }` with
no exclusion pattern, a well-formed token and an empty ExistingRefSet is
emitted WITHOUT the peel marker — lines 129-131 truncate `buf` in place
before line 148 prints `buf` — contradicting the claimed output
`abc123 refs/heads/topic^ { }`. -/
theorem exclude_existing_peel_marker_not_preserved :
    processLine ⟨[], fun _ => true⟩ none
      "abc123 refs/heads/topic^\x7b\x7d\n".data
      = .emit "abc123 refs/heads/topic".data
    ∧ "abc123 refs/heads/topic".data
      ≠ stripNewline "abc123 refs/heads/topic^\x7b\x7d\n".data := by
  decide

/-- C1 amended: a line that passes the pattern check, whose token is
well-formed and not locally present, is emitted as the input line after
stripping the trailing terminator AND a trailing peel marker (the
`anything SP` part of the descriptor is preserved, the marker is not). -/
theorem exclude_existing_emits_line_after_peel_strip (env : XEnv)
    (pat : Option Str) (line : Str)
    (hpo : patternOk pat (refTok (stripPeel (stripNewline line))) = true)
    (hok : env.checkRefnameFormat (refTok (stripPeel (stripNewline line)))
      = true)
    (hmem : refTok (stripPeel (stripNewline line)) ∉ env.existingRefs) :
    processLine env pat line = .emit (stripPeel (stripNewline line)) := by
  rw [processLine]
  simp only [hpo, hok]
  rw [if_neg (by simp), if_neg (by simp), if_neg hmem]

/-- Exercises amended C1 on the descriptor from the claim. -/
theorem exclude_existing_emits_line_after_peel_strip_witness :
    processLine xenvW none "abc123 refs/heads/topic^\x7b\x7d\n".data
      = .emit (stripPeel (stripNewline
          "abc123 refs/heads/topic^\x7b\x7d\n".data)) :=
  exclude_existing_emits_line_after_peel_strip xenvW none
    "abc123 refs/heads/topic^\x7b\x7d\n".data (by decide) rfl
    (by simp [xenvW])

/-! ## C5 -/

/-- C5: with an exclusion pattern, a line whose token is shorter than the
pattern or does not start with it byte-for-byte is skipped with no output
and no warning, and the loop result on the remaining lines is unchanged. -/
theorem exclude_existing_pattern_mismatch_skips (env : XEnv) (pat : Str)
    (line : Str) (rest : List Str)
    (h : (refTok (stripPeel (stripNewline line))).length < pat.length ∨
      (refTok (stripPeel (stripNewline line))).take pat.length ≠ pat) :
    processLine env (some pat) line = .skip
    ∧ runExclude env (some pat) (line :: rest)
      = runExclude env (some pat) rest := by
  have hpo : patternOk (some pat)
      (refTok (stripPeel (stripNewline line))) = false := by
    rw [patternOk]
    rcases h with h | h
    · simp [Nat.not_le.mpr h]
    · simp [h]
  have h1 : processLine env (some pat) line = .skip := by
    rw [processLine]
    simp [hpo]
  exact ⟨h1, by rw [runExclude, h1]⟩

/-- Exercises C5 in the spec §8.9 scenario: pattern `refs/heads/` and
candidate `refs/tags/v1` (token long enough but not prefix-matching). -/
theorem exclude_existing_pattern_mismatch_skips_witness :
    processLine xenvW (some "refs/heads/".data) "refs/tags/v1\n".data
      = .skip
    ∧ runExclude xenvW (some "refs/heads/".data)
        ("refs/tags/v1\n".data :: ["refs/heads/dev\n".data])
      = runExclude xenvW (some "refs/heads/".data)
        ["refs/heads/dev\n".data] :=
  exclude_existing_pattern_mismatch_skips xenvW "refs/heads/".data
    "refs/tags/v1\n".data ["refs/heads/dev\n".data] (by decide)

/-! ## C6 -/

/-- C6: a line whose token reaches and fails the refname-format check is
answered with a warning naming that token and no output line, processing
goes on with the remaining lines, and the exclusion filter exits 0 on
every input stream (no abort path exists in the loop). -/
theorem exclude_existing_malformed_warns_never_aborts (env : XEnv)
    (pat : Option Str) (line : Str) (rest : List Str)
    (hpo : patternOk pat (refTok (stripPeel (stripNewline line))) = true)
    (hbad : env.checkRefnameFormat (refTok (stripPeel (stripNewline line)))
      = false) :
    processLine env pat line
      = .warn (refTok (stripPeel (stripNewline line)))
    ∧ runExclude env pat (line :: rest)
      = ((runExclude env pat rest).1,
         refTok (stripPeel (stripNewline line))
           :: (runExclude env pat rest).2)
    ∧ ∀ ls : List Str, (cmd_show_ref__exclude_existing env pat ls).2 = 0 := by
  have h1 : processLine env pat line
      = .warn (refTok (stripPeel (stripNewline line))) := by
    rw [processLine]
    simp [hpo, hbad]
  refine ⟨h1, ?_, fun ls => rfl⟩
  rw [runExclude, h1]

/-- Exercises C6 on the malformed candidate `zz bad name` (token `name`
rejected by the checker) followed by a valid line. -/
theorem exclude_existing_malformed_warns_never_aborts_witness :
    processLine xenvBad none "zz bad name\n".data = .warn "name".data
    ∧ runExclude xenvBad none
        ("zz bad name\n".data :: ["refs/heads/dev\n".data])
      = ((runExclude xenvBad none ["refs/heads/dev\n".data]).1,
         "name".data
           :: (runExclude xenvBad none ["refs/heads/dev\n".data]).2)
    ∧ ∀ ls : List Str,
        (cmd_show_ref__exclude_existing xenvBad none ls).2 = 0 :=
  exclude_existing_malformed_warns_never_aborts xenvBad none
    "zz bad name\n".data ["refs/heads/dev\n".data] rfl rfl

/-! ## C3 -/

/-- C3: when verification reaches a name that is outside `refs/` and not
HEAD, or that `read_ref` fails to resolve, then without quiet the whole
invocation dies naming the ref, and with quiet it returns the no-match
code 1 immediately; the remaining names `rest` are arbitrary and absent
from the result, so they are never examined. -/
theorem verify_invalid_name_fatal_or_quiet_stop (env : Env) (o : Opts)
    (r : Str) (rest : List Str)
    (h : validVerifyName r = false ∨ env.readRef r = none) :
    (o.quiet = false →
      cmd_show_ref__verify env o (r :: rest) =
        .error ("\x27".data ++ r ++ "\x27 - not a valid ref".data))
    ∧ (o.quiet = true →
        cmd_show_ref__verify env o (r :: rest) = .ok ([], 1)) := by
  have hnone : (if validVerifyName r then env.readRef r else none)
      = none := by
    rcases h with h | h <;> simp [h]
  have hne : (r :: rest) ≠ ([] : List Str) := by simp
  constructor <;> intro hq <;>
    rw [cmd_show_ref__verify, if_neg hne, verifyGo, hnone] <;> simp [hq]

/-- Exercises C3 on `refs/heads/doesnotexist` (unresolvable in `envW`),
followed by a further name that is provably not reached. -/
theorem verify_invalid_name_fatal_or_quiet_stop_witness :
    cmd_show_ref__verify envW optsW
        ["refs/heads/doesnotexist".data, "refs/heads/later".data] =
      .error ("\x27".data ++ "refs/heads/doesnotexist".data
        ++ "\x27 - not a valid ref".data)
    ∧ cmd_show_ref__verify envW optsQuiet
        ["refs/heads/doesnotexist".data, "refs/heads/later".data] =
      .ok ([], 1) :=
  ⟨(verify_invalid_name_fatal_or_quiet_stop envW optsW
      "refs/heads/doesnotexist".data ["refs/heads/later".data]
      (Or.inr rfl)).1 rfl,
   (verify_invalid_name_fatal_or_quiet_stop envW optsQuiet
      "refs/heads/doesnotexist".data ["refs/heads/later".data]
      (Or.inr rfl)).2 rfl⟩

/-! ## C8 -/

/-- C8: the driver honors exactly one mode in the fixed priority order
exclude-existing, verify, pattern; the `Invocation` constructor records
which single entry point ran. -/
theorem cmd_show_ref_mode_priority (env : Env) (xenv : XEnv) (o : Opts)
    (xopts : ExcludeExistingOptions) (stdinLines : List Str)
    (refs : List (Str × Oid)) (argv : List Str) :
    (xopts.enabled = true →
      cmd_show_ref env xenv o xopts stdinLines refs argv =
        .ranExclude (cmd_show_ref__exclude_existing xenv xopts.pattern
          stdinLines))
    ∧ (xopts.enabled = false → o.verify = true →
        cmd_show_ref env xenv o xopts stdinLines refs argv =
          .ranVerify (cmd_show_ref__verify env o argv))
    ∧ (xopts.enabled = false → o.verify = false →
        cmd_show_ref env xenv o xopts stdinLines refs argv =
          .ranPatterns (cmd_show_ref__patterns env o refs argv)) := by
  refine ⟨fun h => ?_, fun h hv => ?_, fun h hv => ?_⟩ <;>
    simp [cmd_show_ref, h] <;> simp [hv]

/-- Exercises C8: with both the exclude-existing flag and `--verify` set
the exclusion filter wins; with only `--verify` set the verifier runs;
with neither, pattern mode runs. -/
theorem cmd_show_ref_mode_priority_witness :
    (cmd_show_ref envW xenvW optsVerify ⟨true, none⟩ [] [] [] =
      .ranExclude (cmd_show_ref__exclude_existing xenvW none []))
    ∧ (cmd_show_ref envW xenvW optsVerify ⟨false, none⟩ [] [] [] =
        .ranVerify (cmd_show_ref__verify envW optsVerify []))
    ∧ (cmd_show_ref envW xenvW optsW ⟨false, none⟩ [] [] [] =
        .ranPatterns (cmd_show_ref__patterns envW optsW [] [])) :=
  ⟨(cmd_show_ref_mode_priority envW xenvW optsVerify ⟨true, none⟩
      [] [] []).1 rfl,
   (cmd_show_ref_mode_priority envW xenvW optsVerify ⟨false, none⟩
      [] [] []).2.1 rfl rfl,
   (cmd_show_ref_mode_priority envW xenvW optsW ⟨false, none⟩
      [] [] []).2.2 rfl rfl⟩

/-! ## C9 -/

/-- C9: whenever pattern mode returns normally, the `found_match` tally
of the underlying enumeration equals the number of refs accepted by the
matching decision, and the returned code is 1 exactly when that tally is
zero (0 otherwise). -/
theorem patterns_exit_iff_zero_matches (env : Env) (o : Opts)
    (refs : List (Str × Oid)) (argv : List Str) (outs : List Str)
    (code : Nat)
    (h : cmd_show_ref__patterns env o refs argv = .ok (outs, code)) :
    ∃ n, runPatterns env o argv refs = .ok (outs, n)
      ∧ n = refs.countP (fun ro => ref_matches o argv ro.1)
      ∧ (code = 1 ↔ n = 0) ∧ (n ≠ 0 → code = 0) := by
  rw [cmd_show_ref__patterns] at h
  cases hrp : runPatterns env o argv refs with
  | error e => rw [hrp] at h; cases h
  | ok p =>
    obtain ⟨outs2, n⟩ := p
    rw [hrp] at h
    injection h with h
    injection h with h1 h2
    refine ⟨n, ?_, runPatterns_count env o argv refs outs2 n hrp,
      ?_, ?_⟩
    · rw [← h1]
    · subst h2
      constructor
      · intro hc
        by_contra hn
        rw [if_neg hn] at hc
        cases hc
      · intro hn
        rw [if_pos hn]
    · intro hn
      rw [← h2, if_neg hn]

/-- Exercises C9 on a two-ref enumeration where exactly one ref matches
the pattern `main` (quiet, so no output): the code is 0 and the tally 1. -/
theorem patterns_exit_iff_zero_matches_witness :
    ∃ n, runPatterns envW optsQuiet ["main".data]
        [("refs/heads/main".data, "ab".data),
         ("refs/heads/dev".data, "cd".data)] = .ok ([], n)
      ∧ n = [("refs/heads/main".data, "ab".data),
             ("refs/heads/dev".data, "cd".data)].countP
          (fun ro => ref_matches optsQuiet ["main".data] ro.1)
      ∧ (0 = 1 ↔ n = 0) ∧ (n ≠ 0 → 0 = 0) :=
  patterns_exit_iff_zero_matches envW optsQuiet
    [("refs/heads/main".data, "ab".data),
     ("refs/heads/dev".data, "cd".data)] ["main".data] [] 0 rfl

end ShowRef

